import Mathlib

/-!
Shallow embedding of `internal/service/elasticache/diff.go` and of the
destroy-check helper in `internal/service/oam/sink_test.go` from the
`terraform-provider-aws` repository, together with theorems settling the
frozen claims about them.

Modelling conventions:

* A Terraform attribute value (Go `interface{}`) is the sum type `Val`
  (string, int, bool).  A Go type assertion `v.(string)` is `Val.asString`,
  returning `none` on mismatch; a `none` at that point means the Go code
  would panic, so every customize-diff function returns
  `Option (Option ErrMsg × List Effect)`: the outer `none` is a panic, the
  inner `Option ErrMsg` is the returned Go `error` (`none` = `nil`), and
  `List Effect` records the mutating method calls made on the diff
  (`ForceNew`), so that frame properties are statable.
* `schema.ResourceDiff` is modelled by `ResourceDiff`: a total attribute
  map (the SDK Get always yields a value of the schema type, the zero
  value when the field is unset), the resource id, the set of changed
  keys, and the abstract result of `ForceNew` (decided by the SDK).
* `GetOk` returns the value exactly when it is not the zero value of its
  type, matching the plugin SDK (`ok` == set and non-zero).
* `normalizeEngineVersion` and the go-version comparison are not part of
  the sources under verification; the transit-encryption function is
  parameterised by the normalization function, and versions are modelled
  as numeric segment lists compared segment-wise with zero padding.
-/

namespace TFAWS

/-- Error values are modelled by their message strings. -/
abbrev ErrMsg := String

/-- A dynamically typed attribute value, the model of Go `interface{}`
restricted to the types appearing in `diff.go`. -/
inductive Val where
  | str : String → Val
  | int : Int → Val
  | bool : Bool → Val
deriving DecidableEq, Repr

/-- Go type assertion `v.(string)`: succeeds only on a string value. -/
def Val.asString : Val → Option String
  | .str s => some s
  | _ => none

/-- Go type assertion `v.(int)`: succeeds only on an int value. -/
def Val.asInt : Val → Option Int
  | .int n => some n
  | _ => none

/-- Go type assertion `v.(bool)`: succeeds only on a bool value. -/
def Val.asBool : Val → Option Bool
  | .bool b => some b
  | _ => none

/-- Whether a value is the zero value of its type, as the plugin SDK
`GetOk` tests (empty string, zero int, false bool). -/
def Val.isZero : Val → Bool
  | .str s => s == ""
  | .int n => n == 0
  | .bool b => b == false

/-- True when the value is a string. -/
def Val.isStr : Val → Bool
  | .str _ => true
  | _ => false

/-- True when the value is an int. -/
def Val.isInt : Val → Bool
  | .int _ => true
  | _ => false

/-- True when the value is a bool. -/
def Val.isBool : Val → Bool
  | .bool _ => true
  | _ => false

/-- A mutating call made on a `schema.ResourceDiff` during diff
customization.  The six functions in `diff.go` use only `ForceNew`. -/
inductive Effect where
  | forceNew : String → Effect
deriving DecidableEq, Repr

/-- Model of `schema.ResourceDiff`: the attribute map (total, `Get`
semantics), the resource id, which keys report a change, and the
result the SDK would return from `ForceNew` on a given key. -/
structure ResourceDiff where
  attrs : String → Val
  id : String
  changed : String → Bool
  forceNewResult : String → Option ErrMsg

/-- The plugin SDK `Get`: always yields a value (zero value when unset). -/
def ResourceDiff.get (d : ResourceDiff) (k : String) : Val := d.attrs k

/-- The plugin SDK `GetOk`: the value together with `ok`, where `ok` holds
exactly when the value is set and not the zero value of its type. -/
def ResourceDiff.getOk (d : ResourceDiff) (k : String) : Option Val :=
  if (d.attrs k).isZero then none else some (d.attrs k)

/-- The plugin SDK `HasChange`. -/
def ResourceDiff.hasChange (d : ResourceDiff) (k : String) : Bool := d.changed k

/-- Modelled from the spec: the package constant `engineMemcached`, defined
outside the provided sources; its value is the engine name "memcached". -/
def engineMemcached : String := "memcached"

/-- Modelled from the spec: the package constant `engineRedis`, defined
outside the provided sources; its value is the engine name "redis". -/
def engineRedis : String := "redis"

/-- The AWS SDK constant `elasticache.AZModeCrossAz` (external dependency). -/
def AZModeCrossAz : String := "cross-az"

/-- Segment-wise comparison with zero padding, the model of go-version
`LessThan` on plain numeric versions (the external `go-version` library). -/
def segLt : List Nat → List Nat → Bool
  | [], [] => false
  | [], b :: bs => if 0 < b then true else segLt [] bs
  | a :: as, [] => if 0 < a then false else segLt as []
  | a :: as, b :: bs =>
    if a < b then true else if b < a then false else segLt as bs

/-- The version constant `minMemcachedTransitEncryptionVersion`, 1.6.12. -/
def minMemcachedTransitEncryptionVersion : List Nat := [1, 6, 12]

/-- Message of the error returned by `CustomizeDiffValidateClusterAZMode`. -/
def errAZMode : ErrMsg := "az_mode \"cross-az\" is not supported with num_cache_nodes = 1"

/-- Message of the error returned by `CustomizeDiffValidateClusterNumCacheNodes`. -/
def errNumCacheNodes : ErrMsg := "engine \"redis\" does not support num_cache_nodes > 1"

/-- Message of the error returned by `CustomizeDiffValidateClusterMemcachedSnapshotIdentifier`. -/
def errSnapshotIdentifier : ErrMsg := "engine \"memcached\" does not support final_snapshot_identifier"

/-- Message of the error returned by `CustomizeDiffValidateReplicationGroupAutomaticFailover`. -/
def errAutomaticFailover : ErrMsg := "automatic_failover_enabled must be true if multi_az_enabled is true"

/-- Message of the error directing the user to `aws_elasticache_replication_group`. -/
def errTransitRedis : ErrMsg := "aws_elasticache_cluster does not support transit encryption using the redis engine, use aws_elasticache_replication_group instead"

/-- Message of the too-old-version error from `CustomizeDiffValidateTransitEncryptionEnabled`. -/
def errTransitVersion (ver : List Nat) : ErrMsg :=
  "Transit encryption is not supported for memcached version " ++ toString ver

/-- Embedding of `CustomizeDiffValidateClusterAZMode` (`diff.go` lines 19-28). -/
def CustomizeDiffValidateClusterAZMode (d : ResourceDiff) :
    Option (Option ErrMsg × List Effect) :=
  match d.getOk "az_mode" with
  | none => some (none, [])
  | some v =>
    match v.asString with
    | none => none
    | some s =>
      if s ≠ AZModeCrossAz then some (none, [])
      else
        match d.getOk "num_cache_nodes" with
        | none => some (none, [])
        | some w =>
          match w.asInt with
          | none => none
          | some n =>
            if n ≠ 1 then some (none, [])
            else some (some errAZMode, [])

/-- Embedding of `CustomizeDiffValidateClusterNumCacheNodes` (`diff.go` lines 31-40). -/
def CustomizeDiffValidateClusterNumCacheNodes (d : ResourceDiff) :
    Option (Option ErrMsg × List Effect) :=
  match d.getOk "engine" with
  | none => some (none, [])
  | some v =>
    match v.asString with
    | none => none
    | some s =>
      if s = engineMemcached then some (none, [])
      else
        match d.getOk "num_cache_nodes" with
        | none => some (none, [])
        | some w =>
          match w.asInt with
          | none => none
          | some n =>
            if n = 1 then some (none, [])
            else some (some errNumCacheNodes, [])

/-- Embedding of `CustomizeDiffClusterMemcachedNodeType` (`diff.go` lines 43-53). -/
def CustomizeDiffClusterMemcachedNodeType (d : ResourceDiff) :
    Option (Option ErrMsg × List Effect) :=
  if d.id = "" ∨ d.hasChange "node_type" = false then some (none, [])
  else
    match d.getOk "engine" with
    | none => some (none, [])
    | some v =>
      match v.asString with
      | none => none
      | some s =>
        if s = engineRedis then some (none, [])
        else some (d.forceNewResult "node_type", [.forceNew "node_type"])

/-- Embedding of `CustomizeDiffValidateClusterMemcachedSnapshotIdentifier` (`diff.go` lines 56-64). -/
def CustomizeDiffValidateClusterMemcachedSnapshotIdentifier (d : ResourceDiff) :
    Option (Option ErrMsg × List Effect) :=
  match d.getOk "engine" with
  | none => some (none, [])
  | some v =>
    match v.asString with
    | none => none
    | some s =>
      if s = engineRedis then some (none, [])
      else
        match d.getOk "final_snapshot_identifier" with
        | none => some (none, [])
        | some _ => some (some errSnapshotIdentifier, [])

/-- Embedding of `CustomizeDiffValidateReplicationGroupAutomaticFailover` (`diff.go` lines 67-75). -/
def CustomizeDiffValidateReplicationGroupAutomaticFailover (d : ResourceDiff) :
    Option (Option ErrMsg × List Effect) :=
  match (d.get "multi_az_enabled").asBool with
  | none => none
  | some m =>
    if m = false then some (none, [])
    else
      match (d.get "automatic_failover_enabled").asBool with
      | none => none
      | some a =>
        if a = false then some (some errAutomaticFailover, [])
        else some (none, [])

/-- Embedding of `CustomizeDiffValidateTransitEncryptionEnabled` (`diff.go`
lines 79-99), parameterised by `normalizeEngineVersion`, which is defined
outside the provided sources and treated as an opaque argument. -/
def CustomizeDiffValidateTransitEncryptionEnabled
    (normalize : String → Except ErrMsg (List Nat)) (d : ResourceDiff) :
    Option (Option ErrMsg × List Effect) :=
  match d.getOk "transit_encryption_enabled" with
  | none => some (none, [])
  | some v =>
    match v.asBool with
    | none => none
    | some t =>
      if t = false then some (none, [])
      else
        match (d.get "engine").asString with
        | none => none
        | some engine =>
          if engine = engineRedis then some (some errTransitRedis, [])
          else
            match d.getOk "engine_version" with
            | none => some (none, [])
            | some ev =>
              match ev.asString with
              | none => none
              | some s =>
                match normalize s with
                | .error e => some (some e, [])
                | .ok ver =>
                  if segLt ver minMemcachedTransitEncryptionVersion then
                    some (some (errTransitVersion ver), [])
                  else some (none, [])

/-- A resource entry of the root module of a Terraform state, as read by
`testAccCheckSinkDestroy` (type and primary instance ID). -/
structure StateResource where
  type : String
  primaryID : String
deriving DecidableEq, Repr

/-- Outcome of a `GetSink` call, as distinguished by the destroy check:
success, a `ResourceNotFoundException`, or any other error. -/
inductive GetSinkResult where
  | ok
  | notFound
  | otherError : ErrMsg → GetSinkResult
deriving DecidableEq, Repr

/-- Result of `testAccCheckSinkDestroy`: `nil`, the `create.Error`
reporting a sink not destroyed (with the resource ID it names), or a
`GetSink` error returned unchanged. -/
inductive DestroyResult where
  | ok
  | notDestroyed : String → DestroyResult
  | getSinkErr : ErrMsg → DestroyResult
deriving DecidableEq, Repr

/-- Embedding of `testAccCheckSinkDestroy` (`sink_test.go` lines 155-180):
the loop over the root module resources, with `GetSink` abstracted as an
oracle from the resource ID to its outcome.  Go map iteration is modelled
by the list order. -/
def testAccCheckSinkDestroy (getSink : String → GetSinkResult) :
    List StateResource → DestroyResult
  | [] => .ok
  | rs :: rest =>
    if rs.type ≠ "aws_oam_sink" then testAccCheckSinkDestroy getSink rest
    else
      match getSink rs.primaryID with
      | .notFound => .ok
      | .otherError e => .getSinkErr e
      | .ok => .notDestroyed rs.primaryID

/-- Result equation for `CustomizeDiffValidateClusterAZMode` on a diff whose
fields have the schema types. -/
theorem azMode_spec (d : ResourceDiff) (a : String) (n : Int)
    (ha : d.attrs "az_mode" = .str a) (hn : d.attrs "num_cache_nodes" = .int n) :
    CustomizeDiffValidateClusterAZMode d =
      some (if a = AZModeCrossAz ∧ n = 1 then some errAZMode else none, []) := by
  simp only [CustomizeDiffValidateClusterAZMode, ResourceDiff.getOk, ha, hn,
    Val.isZero, Val.asString, Val.asInt]
  by_cases haz : a = AZModeCrossAz
  · subst haz
    by_cases hn1 : n = 1
    · subst hn1; simp [AZModeCrossAz]
    · by_cases hn0 : n = 0 <;> simp [AZModeCrossAz, hn0, hn1]
  · by_cases ha0 : a = ""
    · subst ha0; simp [AZModeCrossAz, haz]
    · simp [ha0, haz]

/-- Result equation for `CustomizeDiffValidateClusterNumCacheNodes` on a
diff whose fields have the schema types. -/
theorem numCacheNodes_spec (d : ResourceDiff) (e : String) (n : Int)
    (he : d.attrs "engine" = .str e) (hn : d.attrs "num_cache_nodes" = .int n) :
    CustomizeDiffValidateClusterNumCacheNodes d =
      some (if e ≠ "" ∧ e ≠ engineMemcached ∧ n ≠ 0 ∧ n ≠ 1
            then some errNumCacheNodes else none, []) := by
  simp only [CustomizeDiffValidateClusterNumCacheNodes, ResourceDiff.getOk, he, hn,
    Val.isZero, Val.asString, Val.asInt]
  by_cases he0 : e = "" <;> by_cases hem : e = engineMemcached <;>
    by_cases hn0 : n = 0 <;> by_cases hn1 : n = 1 <;>
    simp_all

/-- Result equation for `CustomizeDiffClusterMemcachedNodeType` on a diff
whose `engine` field is a string. -/
theorem nodeType_spec (d : ResourceDiff) (e : String)
    (he : d.attrs "engine" = .str e) :
    CustomizeDiffClusterMemcachedNodeType d =
      (if d.id ≠ "" ∧ d.hasChange "node_type" = true ∧ e ≠ "" ∧ e ≠ engineRedis
       then some (d.forceNewResult "node_type", [.forceNew "node_type"])
       else some (none, [])) := by
  simp only [CustomizeDiffClusterMemcachedNodeType, ResourceDiff.getOk, he,
    Val.isZero, Val.asString]
  by_cases hid : d.id = "" <;> by_cases hch : d.hasChange "node_type" = false <;>
    by_cases he0 : e = "" <;> by_cases her : e = engineRedis <;>
    simp_all

/-- Result equation for `CustomizeDiffValidateClusterMemcachedSnapshotIdentifier`
on a diff whose `engine` field is a string. -/
theorem snapshot_spec (d : ResourceDiff) (e : String)
    (he : d.attrs "engine" = .str e) :
    CustomizeDiffValidateClusterMemcachedSnapshotIdentifier d =
      some (if e ≠ "" ∧ e ≠ engineRedis ∧
              (d.attrs "final_snapshot_identifier").isZero = false
            then some errSnapshotIdentifier else none, []) := by
  simp only [CustomizeDiffValidateClusterMemcachedSnapshotIdentifier,
    ResourceDiff.getOk, he, Val.isZero, Val.asString]
  by_cases he0 : e = "" <;> by_cases her : e = engineRedis <;>
    by_cases hfsi : (d.attrs "final_snapshot_identifier").isZero = true <;>
    simp_all [Val.isZero]

/-- Result equation for `CustomizeDiffValidateReplicationGroupAutomaticFailover`
on a diff whose two bool fields have the schema types. -/
theorem failover_spec (d : ResourceDiff) (m a : Bool)
    (hm : d.attrs "multi_az_enabled" = .bool m)
    (ha : d.attrs "automatic_failover_enabled" = .bool a) :
    CustomizeDiffValidateReplicationGroupAutomaticFailover d =
      some (if m = true ∧ a = false then some errAutomaticFailover else none, []) := by
  simp only [CustomizeDiffValidateReplicationGroupAutomaticFailover,
    ResourceDiff.get, hm, ha, Val.asBool]
  cases m <;> cases a <;> simp

/-- Result equation for `CustomizeDiffValidateTransitEncryptionEnabled` on a
diff whose fields have the schema types. -/
theorem transit_spec (normalize : String → Except ErrMsg (List Nat))
    (d : ResourceDiff) (t : Bool) (e s : String)
    (ht : d.attrs "transit_encryption_enabled" = .bool t)
    (he : d.attrs "engine" = .str e)
    (hv : d.attrs "engine_version" = .str s) :
    CustomizeDiffValidateTransitEncryptionEnabled normalize d =
      some ((if t = true then
              (if e = engineRedis then some errTransitRedis
               else if s = "" then none
               else
                 match normalize s with
                 | .error err => some err
                 | .ok ver =>
                   if segLt ver minMemcachedTransitEncryptionVersion
                   then some (errTransitVersion ver) else none)
             else none), []) := by
  simp only [CustomizeDiffValidateTransitEncryptionEnabled, ResourceDiff.getOk,
    ResourceDiff.get, ht, he, hv, Val.isZero, Val.asBool, Val.asString]
  cases t
  · simp
  · by_cases her : e = engineRedis
    · simp [her]
    · by_cases hs : s = ""
      · simp [her, hs]
      · cases hnv : normalize s with
        | error err => simp [her, hs, hnv]
        | ok ver =>
          by_cases hlt : segLt ver minMemcachedTransitEncryptionVersion <;>
            simp [her, hs, hnv, hlt]

/-- Inversion: a value recognised as a string is one. -/
theorem Val.exists_of_isStr {v : Val} (h : v.isStr = true) : ∃ s, v = .str s := by
  cases v <;> simp_all [Val.isStr]

/-- Inversion: a value recognised as an int is one. -/
theorem Val.exists_of_isInt {v : Val} (h : v.isInt = true) : ∃ n, v = .int n := by
  cases v <;> simp_all [Val.isInt]

/-- Inversion: a value recognised as a bool is one. -/
theorem Val.exists_of_isBool {v : Val} (h : v.isBool = true) : ∃ b, v = .bool b := by
  cases v <;> simp_all [Val.isBool]

/-- The schema precondition for the `aws_elasticache_cluster` and
replication-group diffs: every field read by the six customize-diff
functions carries its declared type. -/
def ClusterWellTyped (d : ResourceDiff) : Prop :=
  (d.attrs "az_mode").isStr = true ∧
  (d.attrs "engine").isStr = true ∧
  (d.attrs "engine_version").isStr = true ∧
  (d.attrs "final_snapshot_identifier").isStr = true ∧
  (d.attrs "num_cache_nodes").isInt = true ∧
  (d.attrs "multi_az_enabled").isBool = true ∧
  (d.attrs "automatic_failover_enabled").isBool = true ∧
  (d.attrs "transit_encryption_enabled").isBool = true

/-- C1: `CustomizeDiffValidateClusterNumCacheNodes` returns its error if and
only if `engine` is set (non-empty) to a value other than "memcached" and
`num_cache_nodes` is set (nonzero) to a value other than 1; in every other
case it returns nil.  The condition mentions only non-memcached, so the
error fires for any non-memcached engine value, not only "redis". -/
theorem numCacheNodes_error_iff (d : ResourceDiff) (e : String) (n : Int)
    (he : d.attrs "engine" = .str e) (hn : d.attrs "num_cache_nodes" = .int n) :
    (CustomizeDiffValidateClusterNumCacheNodes d = some (some errNumCacheNodes, []) ↔
      (e ≠ "" ∧ e ≠ engineMemcached ∧ n ≠ 0 ∧ n ≠ 1)) ∧
    (¬(e ≠ "" ∧ e ≠ engineMemcached ∧ n ≠ 0 ∧ n ≠ 1) →
      CustomizeDiffValidateClusterNumCacheNodes d = some (none, [])) := by
  rw [numCacheNodes_spec d e n he hn]
  by_cases h : e ≠ "" ∧ e ≠ engineMemcached ∧ n ≠ 0 ∧ n ≠ 1 <;> simp [h]

/-- C2: `CustomizeDiffValidateClusterAZMode` returns its error if and only
if `az_mode` is set to "cross-az" and `num_cache_nodes` is set (nonzero)
and equal to 1; in every other case it returns nil. -/
theorem azMode_error_iff (d : ResourceDiff) (a : String) (n : Int)
    (ha : d.attrs "az_mode" = .str a) (hn : d.attrs "num_cache_nodes" = .int n) :
    (CustomizeDiffValidateClusterAZMode d = some (some errAZMode, []) ↔
      (a = AZModeCrossAz ∧ n = 1)) ∧
    (¬(a = AZModeCrossAz ∧ n = 1) →
      CustomizeDiffValidateClusterAZMode d = some (none, [])) := by
  rw [azMode_spec d a n ha hn]
  by_cases h : a = AZModeCrossAz ∧ n = 1 <;> simp [h]

/-- C3: `CustomizeDiffValidateTransitEncryptionEnabled` returns nil when
`transit_encryption_enabled` is unset or false; when it is set and true, it
returns the error directing the user to `aws_elasticache_replication_group`
when `engine` equals "redis"; when engine is not "redis" and
`engine_version` is unset it returns nil; and in the non-redis case the
only errors it can return are the normalization error passed through or
the version error, never the replication-group one from a fresh source. -/
theorem transit_basic (normalize : String → Except ErrMsg (List Nat))
    (d : ResourceDiff) (t : Bool) (e s : String)
    (ht : d.attrs "transit_encryption_enabled" = .bool t)
    (he : d.attrs "engine" = .str e)
    (hv : d.attrs "engine_version" = .str s) :
    (t = false →
      CustomizeDiffValidateTransitEncryptionEnabled normalize d = some (none, [])) ∧
    (t = true → e = engineRedis →
      CustomizeDiffValidateTransitEncryptionEnabled normalize d =
        some (some errTransitRedis, [])) ∧
    (t = true → e ≠ engineRedis → s = "" →
      CustomizeDiffValidateTransitEncryptionEnabled normalize d = some (none, [])) ∧
    (t = true → e ≠ engineRedis →
      ∀ r, CustomizeDiffValidateTransitEncryptionEnabled normalize d = some r →
        r.1 = none ∨ (∃ err, normalize s = .error err ∧ r.1 = some err) ∨
          (∃ ver, normalize s = .ok ver ∧ r.1 = some (errTransitVersion ver))) := by
  rw [transit_spec normalize d t e s ht he hv]
  refine ⟨?_, ?_, ?_, ?_⟩
  · intro h; subst h; simp
  · intro h her; subst h; simp [her]
  · intro h her hs; subst h; simp [her, hs]
  · intro h her r hr
    subst h
    by_cases hs : s = ""
    · simp [her, hs] at hr
      subst hr; simp
    · obtain ⟨res, hnv⟩ : ∃ x, normalize s = x := ⟨_, rfl⟩
      cases res with
      | error err =>
        simp [her, hs, hnv] at hr
        subst hr
        exact Or.inr (Or.inl ⟨err, hnv, rfl⟩)
      | ok ver =>
        by_cases hlt : segLt ver minMemcachedTransitEncryptionVersion
        · simp [her, hs, hnv, hlt] at hr
          subst hr
          exact Or.inr (Or.inr ⟨ver, hnv, rfl⟩)
        · simp [her, hs, hnv, hlt] at hr
          subst hr; simp

/-- C4: with `transit_encryption_enabled` set true, `engine` not "redis",
and `engine_version` set to a string the normalization function parses,
`CustomizeDiffValidateTransitEncryptionEnabled` returns an error if and
only if the parsed version is strictly below 1.6.12 (version 1.6.12 and
above yield nil); a normalization failure is returned unchanged. -/
theorem transit_version_iff (normalize : String → Except ErrMsg (List Nat))
    (d : ResourceDiff) (e s : String)
    (ht : d.attrs "transit_encryption_enabled" = .bool true)
    (he : d.attrs "engine" = .str e)
    (hv : d.attrs "engine_version" = .str s)
    (her : e ≠ engineRedis) (hs : s ≠ "") :
    (∀ ver, normalize s = .ok ver →
      CustomizeDiffValidateTransitEncryptionEnabled normalize d =
        some (if segLt ver minMemcachedTransitEncryptionVersion
              then some (errTransitVersion ver) else none, [])) ∧
    (∀ err, normalize s = .error err →
      CustomizeDiffValidateTransitEncryptionEnabled normalize d =
        some (some err, [])) := by
  rw [transit_spec normalize d true e s ht he hv]
  constructor
  · intro ver hnv; simp [her, hs, hnv]
  · intro err hnv; simp [her, hs, hnv]

/-- C5: `CustomizeDiffClusterMemcachedNodeType` calls `ForceNew` on
`node_type` and returns its result exactly when the id is non-empty,
`node_type` has a change, and `engine` is set (non-empty) to a value other
than "redis"; in every other case it returns nil with no mutation. -/
theorem memcachedNodeType_forceNew_iff (d : ResourceDiff) (e : String)
    (he : d.attrs "engine" = .str e) :
    ((d.id ≠ "" ∧ d.hasChange "node_type" = true ∧ e ≠ "" ∧ e ≠ engineRedis) →
      CustomizeDiffClusterMemcachedNodeType d =
        some (d.forceNewResult "node_type", [.forceNew "node_type"])) ∧
    (¬(d.id ≠ "" ∧ d.hasChange "node_type" = true ∧ e ≠ "" ∧ e ≠ engineRedis) →
      CustomizeDiffClusterMemcachedNodeType d = some (none, [])) := by
  rw [nodeType_spec d e he]
  by_cases h : d.id ≠ "" ∧ d.hasChange "node_type" = true ∧ e ≠ "" ∧ e ≠ engineRedis <;>
    simp [h]

/-- C6: `CustomizeDiffValidateClusterMemcachedSnapshotIdentifier` returns
its error if and only if `engine` is set (non-empty) to a value other than
"redis" and `final_snapshot_identifier` is set; with `engine` unset it
returns nil even when `final_snapshot_identifier` is set. -/
theorem snapshot_error_iff (d : ResourceDiff) (e : String)
    (he : d.attrs "engine" = .str e) :
    (CustomizeDiffValidateClusterMemcachedSnapshotIdentifier d =
        some (some errSnapshotIdentifier, []) ↔
      (e ≠ "" ∧ e ≠ engineRedis ∧
        (d.attrs "final_snapshot_identifier").isZero = false)) ∧
    (¬(e ≠ "" ∧ e ≠ engineRedis ∧
        (d.attrs "final_snapshot_identifier").isZero = false) →
      CustomizeDiffValidateClusterMemcachedSnapshotIdentifier d = some (none, [])) ∧
    (e = "" →
      CustomizeDiffValidateClusterMemcachedSnapshotIdentifier d = some (none, [])) := by
  rw [snapshot_spec d e he]
  by_cases h : e ≠ "" ∧ e ≠ engineRedis ∧
      (d.attrs "final_snapshot_identifier").isZero = false
  · have : e ≠ "" := h.1
    simp [h, this]
  · simp [h]

/-- C7: `CustomizeDiffValidateReplicationGroupAutomaticFailover` returns
its error if and only if `multi_az_enabled` is true and
`automatic_failover_enabled` is false; whenever `multi_az_enabled` is
false it returns nil. -/
theorem failover_error_iff (d : ResourceDiff) (m a : Bool)
    (hm : d.attrs "multi_az_enabled" = .bool m)
    (ha : d.attrs "automatic_failover_enabled" = .bool a) :
    (CustomizeDiffValidateReplicationGroupAutomaticFailover d =
        some (some errAutomaticFailover, []) ↔ (m = true ∧ a = false)) ∧
    (m = false →
      CustomizeDiffValidateReplicationGroupAutomaticFailover d = some (none, [])) := by
  rw [failover_spec d m a hm ha]
  cases m <;> cases a <;> simp

/-- C8: `testAccCheckSinkDestroy` is decided by the first resource of type
`aws_oam_sink` in the root module resource list: with none it returns nil;
otherwise a `ResourceNotFoundException` from `GetSink` yields nil, any
other `GetSink` error is returned itself, and a `GetSink` success yields
the not-destroyed error naming that resource ID.  Entries after the first
sink are never inspected. -/
theorem sinkDestroy_first_sink (getSink : String → GetSinkResult)
    (l : List StateResource) :
    testAccCheckSinkDestroy getSink l =
      match l.find? (fun r => r.type == "aws_oam_sink") with
      | none => .ok
      | some r =>
        match getSink r.primaryID with
        | .notFound => .ok
        | .otherError e => .getSinkErr e
        | .ok => .notDestroyed r.primaryID := by
  induction l with
  | nil => rfl
  | cons rs rest ih =>
    by_cases h : rs.type = "aws_oam_sink"
    · simp [testAccCheckSinkDestroy, List.find?_cons, h]
    · simp [testAccCheckSinkDestroy, List.find?_cons, h, ih]

/-- C9: under the precondition that the schema supplies the declared field
types, every one of the six customize-diff functions terminates with a
result (nil or a non-nil error): no interface type assertion panics. -/
theorem customizeDiff_no_panic (d : ResourceDiff)
    (normalize : String → Except ErrMsg (List Nat)) (h : ClusterWellTyped d) :
    (CustomizeDiffValidateClusterAZMode d).isSome = true ∧
    (CustomizeDiffValidateClusterNumCacheNodes d).isSome = true ∧
    (CustomizeDiffClusterMemcachedNodeType d).isSome = true ∧
    (CustomizeDiffValidateClusterMemcachedSnapshotIdentifier d).isSome = true ∧
    (CustomizeDiffValidateReplicationGroupAutomaticFailover d).isSome = true ∧
    (CustomizeDiffValidateTransitEncryptionEnabled normalize d).isSome = true := by
  obtain ⟨h1, h2, h3, h4, h5, h6, h7, h8⟩ := h
  obtain ⟨az, haz⟩ := Val.exists_of_isStr h1
  obtain ⟨e, he⟩ := Val.exists_of_isStr h2
  obtain ⟨ev, hev⟩ := Val.exists_of_isStr h3
  obtain ⟨n, hn⟩ := Val.exists_of_isInt h5
  obtain ⟨m, hm⟩ := Val.exists_of_isBool h6
  obtain ⟨a, ha⟩ := Val.exists_of_isBool h7
  obtain ⟨t, ht⟩ := Val.exists_of_isBool h8
  refine ⟨?_, ?_, ?_, ?_, ?_, ?_⟩
  · rw [azMode_spec d az n haz hn]; rfl
  · rw [numCacheNodes_spec d e n he hn]; rfl
  · rw [nodeType_spec d e he]; split <;> rfl
  · rw [snapshot_spec d e he]; rfl
  · rw [failover_spec d m a hm ha]; rfl
  · rw [transit_spec normalize d t e ev ht he hev]; rfl

/-- C10: the five validation-only customize-diff functions never mutate the
diff (their effect list is empty on every non-panicking run), so the
planned diff is left unchanged whether they return nil or an error; the
node-type function mutates the diff at most through `ForceNew` on
`node_type`. -/
theorem customizeDiff_frame (d : ResourceDiff)
    (normalize : String → Except ErrMsg (List Nat)) :
    (CustomizeDiffValidateClusterAZMode d).all (fun r => r.2 == []) = true ∧
    (CustomizeDiffValidateClusterNumCacheNodes d).all (fun r => r.2 == []) = true ∧
    (CustomizeDiffValidateClusterMemcachedSnapshotIdentifier d).all
      (fun r => r.2 == []) = true ∧
    (CustomizeDiffValidateReplicationGroupAutomaticFailover d).all
      (fun r => r.2 == []) = true ∧
    (CustomizeDiffValidateTransitEncryptionEnabled normalize d).all
      (fun r => r.2 == []) = true ∧
    (CustomizeDiffClusterMemcachedNodeType d).all
      (fun r => r.2 == [] || r.2 == [Effect.forceNew "node_type"]) = true := by
  refine ⟨?_, ?_, ?_, ?_, ?_, ?_⟩
  · unfold CustomizeDiffValidateClusterAZMode
    repeat' split
    all_goals rfl
  · unfold CustomizeDiffValidateClusterNumCacheNodes
    repeat' split
    all_goals rfl
  · unfold CustomizeDiffValidateClusterMemcachedSnapshotIdentifier
    repeat' split
    all_goals rfl
  · unfold CustomizeDiffValidateReplicationGroupAutomaticFailover
    repeat' split
    all_goals rfl
  · unfold CustomizeDiffValidateTransitEncryptionEnabled
    repeat' split
    all_goals rfl
  · unfold CustomizeDiffClusterMemcachedNodeType
    repeat' split
    all_goals rfl

/-- A sample diff of an existing cluster with engine "redis", two cache
nodes, cross-az mode, multi-az on, automatic failover off, and transit
encryption on; all remaining fields are at their string zero value. -/
def diffSample : ResourceDiff where
  attrs := fun k =>
    if k = "engine" then .str "redis"
    else if k = "num_cache_nodes" then .int 2
    else if k = "az_mode" then .str "cross-az"
    else if k = "multi_az_enabled" then .bool true
    else if k = "automatic_failover_enabled" then .bool false
    else if k = "transit_encryption_enabled" then .bool true
    else .str ""
  id := "cluster-1"
  changed := fun _ => true
  forceNewResult := fun _ => none

/-- A sample diff of a new memcached cluster on engine version 1.6.6 with
transit encryption requested. -/
def diffMemcached : ResourceDiff where
  attrs := fun k =>
    if k = "engine" then .str "memcached"
    else if k = "engine_version" then .str "1.6.6"
    else if k = "num_cache_nodes" then .int 2
    else if k = "transit_encryption_enabled" then .bool true
    else if k = "multi_az_enabled" then .bool false
    else if k = "automatic_failover_enabled" then .bool false
    else .str ""
  id := ""
  changed := fun _ => false
  forceNewResult := fun _ => none

/-- A sample diff of an existing memcached cluster whose `node_type` is
being changed. -/
def diffForce : ResourceDiff where
  attrs := fun k =>
    if k = "engine" then .str "memcached"
    else if k = "num_cache_nodes" then .int 1
    else if k = "multi_az_enabled" then .bool false
    else if k = "automatic_failover_enabled" then .bool false
    else if k = "transit_encryption_enabled" then .bool false
    else .str ""
  id := "cache-1"
  changed := fun k => k == "node_type"
  forceNewResult := fun _ => none

/-- A sample diff of a memcached cluster with a final snapshot identifier. -/
def diffSnap : ResourceDiff where
  attrs := fun k =>
    if k = "engine" then .str "memcached"
    else if k = "final_snapshot_identifier" then .str "snap-1"
    else if k = "num_cache_nodes" then .int 1
    else if k = "multi_az_enabled" then .bool false
    else if k = "automatic_failover_enabled" then .bool false
    else if k = "transit_encryption_enabled" then .bool false
    else .str ""
  id := ""
  changed := fun _ => false
  forceNewResult := fun _ => none

/-- Witness for C1: on `diffSample` (engine "redis", two nodes) the
validator reports the error. -/
theorem numCacheNodes_error_iff_witness :
    CustomizeDiffValidateClusterNumCacheNodes diffSample =
      some (some errNumCacheNodes, []) :=
  (numCacheNodes_error_iff diffSample "redis" 2 rfl rfl).1.mpr (by decide)

/-- Witness for C2: on `diffSample` (cross-az with two nodes) the validator
returns nil. -/
theorem azMode_error_iff_witness :
    CustomizeDiffValidateClusterAZMode diffSample = some (none, []) :=
  (azMode_error_iff diffSample "cross-az" 2 rfl rfl).2 (by decide)

/-- Witness for C3: on `diffSample` (transit encryption with redis) the
validator returns the replication-group error. -/
theorem transit_basic_witness :
    CustomizeDiffValidateTransitEncryptionEnabled
        (fun _ => Except.ok []) diffSample = some (some errTransitRedis, []) :=
  (transit_basic (fun _ => Except.ok []) diffSample true "redis" ""
    rfl rfl rfl).2.1 rfl rfl

/-- Witness for C4: on `diffMemcached` (memcached 1.6.6 with transit
encryption), with a normalization returning segments 1.6.6, the validator
returns the version error since 1.6.6 is below 1.6.12. -/
theorem transit_version_iff_witness :
    CustomizeDiffValidateTransitEncryptionEnabled
        (fun _ => Except.ok [1, 6, 6]) diffMemcached =
      some (if segLt [1, 6, 6] minMemcachedTransitEncryptionVersion
            then some (errTransitVersion [1, 6, 6]) else none, []) :=
  (transit_version_iff (fun _ => Except.ok [1, 6, 6]) diffMemcached
    "memcached" "1.6.6" rfl rfl rfl (by decide) (by decide)).1 [1, 6, 6] rfl

/-- Witness for C5: on `diffForce` (existing memcached cluster with a
changed node type) the function forces re-creation of `node_type`. -/
theorem memcachedNodeType_forceNew_iff_witness :
    CustomizeDiffClusterMemcachedNodeType diffForce =
      some (diffForce.forceNewResult "node_type", [.forceNew "node_type"]) :=
  (memcachedNodeType_forceNew_iff diffForce "memcached" rfl).1 (by decide)

/-- Witness for C6: on `diffSnap` (memcached with a final snapshot
identifier) the validator reports the error. -/
theorem snapshot_error_iff_witness :
    CustomizeDiffValidateClusterMemcachedSnapshotIdentifier diffSnap =
      some (some errSnapshotIdentifier, []) :=
  (snapshot_error_iff diffSnap "memcached" rfl).1.mpr (by decide)

/-- Witness for C7: on `diffSample` (multi-az on, automatic failover off)
the validator reports the error. -/
theorem failover_error_iff_witness :
    CustomizeDiffValidateReplicationGroupAutomaticFailover diffSample =
      some (some errAutomaticFailover, []) :=
  (failover_error_iff diffSample true false rfl rfl).1.mpr (by decide)

/-- Witness for C9: `diffSample` satisfies the schema typing precondition
and none of the six functions panics on it. -/
theorem customizeDiff_no_panic_witness :
    (CustomizeDiffValidateClusterAZMode diffSample).isSome = true ∧
    (CustomizeDiffValidateClusterNumCacheNodes diffSample).isSome = true ∧
    (CustomizeDiffClusterMemcachedNodeType diffSample).isSome = true ∧
    (CustomizeDiffValidateClusterMemcachedSnapshotIdentifier diffSample).isSome = true ∧
    (CustomizeDiffValidateReplicationGroupAutomaticFailover diffSample).isSome = true ∧
    (CustomizeDiffValidateTransitEncryptionEnabled
      (fun _ => Except.ok []) diffSample).isSome = true :=
  customizeDiff_no_panic diffSample (fun _ => Except.ok [])
    ⟨rfl, rfl, rfl, rfl, rfl, rfl, rfl, rfl⟩

end TFAWS
